import Mathlib

/-!
Verification development for the Jobly data-access layer: the partial-update
SQL clause builder (`helpers/sql.js`) and the `Company`, `Job` and `User`
repository modules (`models/company.js`, `models/job.js`, `models/user.js`).

Modelling conventions:
* JS objects (sparse update mappings, returned records, table rows of the
  `users` table) are association lists `List (String × String)` in insertion
  order with unique keys; JS `Object.keys` / `Object.values` become
  `List.map Prod.fst` / `List.map Prod.snd`.
* Application errors (`BadRequestError`, `NotFoundError`, `UnauthorizedError`)
  become the `Error` inductive; thrown errors become `Except.error`.
* The database client is modelled by explicit table arguments and, for the
  mutating operations, a log (`List String`) of the SQL texts issued, so that
  "fails before issuing any query" is expressible.
* `bcrypt.hash` / `bcrypt.compare` are external collaborators and are passed
  in as function arguments.
* JS truthiness on the criteria values is modelled on the criteria's schema
  types: a numeric criterion is falsy exactly when absent or `0`, a string
  criterion exactly when absent or `""`.
-/

/-- Error taxonomy of `expressError.js`: `badRequest` is the spec's
InvalidInput / DuplicateEntity kind, `notFound` its NotFound kind,
`unauthorized` its Unauthorized kind. -/
inductive Error where
  | badRequest (msg : String)
  | notFound (msg : String)
  | unauthorized (msg : String)
deriving DecidableEq, Repr

deriving instance DecidableEq for Except

/-- A JS object / SQL row as an insertion-ordered association list. -/
abbrev Row := List (String × String)

/-- Lookup of a key in a JS object; `none` models `undefined`. -/
def lookupStr (row : Row) (k : String) : Option String :=
  (row.find? (fun kv => kv.1 == k)).map (fun kv => kv.2)

/-- Lookup with `""` for a missing key (used where the JS code reads a
property it knows is present). -/
def lookupD (row : Row) (k : String) : String :=
  (lookupStr row k).getD ""

/-- JS truthiness of an optional string: `undefined` and `""` are falsy. -/
def truthyStr (o : Option String) : Bool :=
  match o with
  | none => false
  | some s => s != ""

/-- JS truthiness of an optional number: `undefined` and `0` are falsy. -/
def truthyInt (o : Option Int) : Bool :=
  match o with
  | none => false
  | some n => n != 0

/-- The column name used for a logical field name: `jsToSql[colName] || colName`
(the fallback also fires on a falsy, i.e. empty, mapped name). -/
def resolveCol (jsToSql : Row) (colName : String) : String :=
  match lookupStr jsToSql colName with
  | some c => if c == "" then colName else c
  | none => colName

/-- Result of the clause builder: the joined SET clause and the value list. -/
structure SetClause where
  setCols : String
  values : List String
deriving DecidableEq, Repr

/-- The function `sqlForPartialUpdate(dataToUpdate, jsToSql)` from `helpers/sql.js`:
rejects an empty mapping with `BadRequestError("No data")`, otherwise maps
each key (in insertion order) to `"col"=$i` with 1-based `i`, joins with
`", "`, and pairs it with `Object.values(dataToUpdate)`. -/
def sqlForPartialUpdate (dataToUpdate jsToSql : Row) : Except Error SetClause :=
  let keys := dataToUpdate.map Prod.fst
  if keys.length == 0 then .error (.badRequest "No data")
  else
    let cols := keys.enum.map
      (fun p => "\"" ++ resolveCol jsToSql p.2 ++ "\"=$" ++ toString (p.1 + 1))
    .ok ⟨String.intercalate ", " cols, dataToUpdate.map Prod.snd⟩

/-- Specification-side rendering of the clause segments: one segment per key,
in order, with 1-based sequential placeholder indices starting at `i`. -/
def expectedSegments (jsToSql : Row) : Nat → List String → List String
  | _, [] => []
  | i, k :: ks =>
      ("\"" ++ resolveCol jsToSql k ++ "\"=$" ++ toString i)
        :: expectedSegments jsToSql (i + 1) ks

theorem expectedSegments_length (jsToSql : Row) :
    ∀ (ks : List String) (i : Nat),
      (expectedSegments jsToSql i ks).length = ks.length := by
  intro ks
  induction ks with
  | nil => intro i; rfl
  | cons k ks ih => intro i; simp [expectedSegments, ih]

theorem enumFrom_map_segments (jsToSql : Row) :
    ∀ (ks : List String) (i : Nat),
      (List.enumFrom i ks).map
          (fun p => "\"" ++ resolveCol jsToSql p.2 ++ "\"=$" ++ toString (p.1 + 1))
        = expectedSegments jsToSql (i + 1) ks := by
  intro ks
  induction ks with
  | nil => intro i; rfl
  | cons k ks ih => intro i; simp [List.enumFrom, expectedSegments, ih]

example :
    sqlForPartialUpdate
      [("firstName", "UpdateFirstName"), ("lastName", "UpdateLastName")]
      [("firstName", "first_name"), ("lastName", "last_name"), ("isAdmin", "is_admin")]
      = .ok ⟨"\"first_name\"=$1, \"last_name\"=$2",
             ["UpdateFirstName", "UpdateLastName"]⟩ := by
  decide

example :
    sqlForPartialUpdate
      [("email", "update@gmail.com"), ("password", "updatepassword")]
      [("firstName", "first_name"), ("lastName", "last_name"), ("isAdmin", "is_admin")]
      = .ok ⟨"\"email\"=$1, \"password\"=$2",
             ["update@gmail.com", "updatepassword"]⟩ := by
  decide

/-! ## Filtered list operations (`Company.findAll`, `Job.findAll`) -/

/-- Test that `needle` occurs at the start of `hay`. -/
def charsHavePre : List Char → List Char → Bool
  | [], _ => true
  | _ :: _, [] => false
  | a :: as, b :: bs => a == b && charsHavePre as bs

/-- Test that `needle` occurs somewhere inside `hay`. -/
def charsContain (needle : List Char) : List Char → Bool
  | [] => charsHavePre needle []
  | b :: bs => charsHavePre needle (b :: bs) || charsContain needle bs

/-- Store semantics of SQL `hay ILIKE '%pat%'`: case-insensitive substring. -/
def ilikeContains (hay pat : String) : Bool :=
  charsContain pat.toLower.toList hay.toLower.toList

/-- Filter criteria accepted by `Company.findAll` (route schema types:
`name` a string, the bounds integers). -/
structure CompanyQuery where
  name : Option String
  minEmployees : Option Int
  maxEmployees : Option Int
deriving DecidableEq, Repr

/-- A row of the `companies` table. -/
structure CompanyRow where
  handle : String
  name : String
  description : String
  numEmployees : Option Int
  logoUrl : Option String
deriving DecidableEq, Repr

/-- The `whereStatement` string `Company.findAll` builds by concatenation,
interpolating the criteria values into the SQL text exactly as the source
does (including the missing space before `and`). -/
def companyWhere (q : CompanyQuery) : String :=
  let ws := ""
  let ws := if truthyStr q.name then
      (if ws.length == 0 then
        ws ++ ("WHERE name ilike \x27%" ++ q.name.getD "" ++ "%\x27")
      else
        ws ++ ("and name ilike \x27%" ++ q.name.getD "" ++ "%\x27"))
    else ws
  let ws := if truthyInt q.minEmployees then
      (if ws.length == 0 then
        ws ++ ("WHERE num_employees >= " ++ toString (q.minEmployees.getD 0))
      else
        ws ++ ("and num_employees >= " ++ toString (q.minEmployees.getD 0)))
    else ws
  let ws := if truthyInt q.maxEmployees then
      (if ws.length == 0 then
        ws ++ ("WHERE num_employees <= " ++ toString (q.maxEmployees.getD 0))
      else
        ws ++ ("and num_employees <= " ++ toString (q.maxEmployees.getD 0)))
    else ws
  ws

/-- The full SELECT text issued by `Company.findAll` (whitespace condensed). -/
def companySelect (ws : String) : String :=
  "SELECT handle, name, description, num_employees AS \"numEmployees\", "
    ++ "logo_url AS \"logoUrl\" FROM companies " ++ ws ++ " ORDER BY name"

/-- Store semantics of the predicate `companyWhere` builds: each branch of the
source contributes one conjunct; a NULL `num_employees` fails a numeric bound
(SQL three-valued logic drops the row). -/
def companyMatches (q : CompanyQuery) (c : CompanyRow) : Bool :=
  (if truthyStr q.name then ilikeContains c.name (q.name.getD "") else true) &&
  (if truthyInt q.minEmployees then
      (match c.numEmployees with
       | some n => decide (q.minEmployees.getD 0 ≤ n)
       | none => false)
    else true) &&
  (if truthyInt q.maxEmployees then
      (match c.numEmployees with
       | some n => decide (n ≤ q.maxEmployees.getD 0)
       | none => false)
    else true)

/-- Embedding of `Company.findAll(query)` from `models/company.js`, over an explicit
`companies` table; the second component logs the SQL texts issued. The rows
come back per `companyMatches` (the `ORDER BY name` clause is carried in the
query text; result order is not examined by any claim). -/
def Company.findAll (q : CompanyQuery) (tbl : List CompanyRow) :
    Except Error (List CompanyRow) × List String :=
  if truthyInt q.minEmployees && truthyInt q.maxEmployees
      && decide (q.minEmployees.getD 0 > q.maxEmployees.getD 0) then
    (.error (.badRequest "Min Employees cannot be greater than Max Employees"), [])
  else
    let whereStatement := companyWhere q
    (.ok (tbl.filter (companyMatches q)), [companySelect whereStatement])

/-- Filter criteria accepted by `Job.findAll` (`hasEquity` reaches the model
as the query-string literal, compared against `"true"` by the source). -/
structure JobQuery where
  title : Option String
  minSalary : Option Int
  hasEquity : Option String
deriving DecidableEq, Repr

/-- A row of the `jobs` table (`equity` is a NUMERIC in [0,1], nullable). -/
structure JobRow where
  id : Nat
  title : String
  salary : Option Int
  equity : Option ℚ
  companyHandle : String
deriving DecidableEq, Repr

/-- The `whereStatement` string `Job.findAll` builds by concatenation,
interpolating criteria values into the SQL text as the source does. -/
def jobWhere (q : JobQuery) : String :=
  let ws := ""
  let ws := if truthyStr q.title then
      (if ws.length == 0 then
        ws ++ ("WHERE title ilike \x27%" ++ q.title.getD "" ++ "%\x27")
      else
        ws ++ ("and title ilike \x27%" ++ q.title.getD "" ++ "%\x27"))
    else ws
  let ws := if truthyInt q.minSalary then
      (if ws.length == 0 then
        ws ++ ("WHERE salary >= " ++ toString (q.minSalary.getD 0))
      else
        ws ++ ("and salary >= " ++ toString (q.minSalary.getD 0)))
    else ws
  let ws := if truthyStr q.hasEquity then
      (if q.hasEquity.getD "" == "true" then
        (if ws.length == 0 then ws ++ "WHERE equity > 0"
         else ws ++ "and equity > 0")
      else ws)
    else ws
  ws

/-- The full SELECT text issued by `Job.findAll` (whitespace condensed). -/
def jobSelect (ws : String) : String :=
  "SELECT id, title, salary, equity, company_handle as \"companyHandle\" FROM jobs " ++ ws

/-- Store semantics of SQL `equity > 0`: NULL equity fails the comparison. -/
def equityPos (j : JobRow) : Bool :=
  match j.equity with
  | some e => decide (0 < e)
  | none => false

/-- Store semantics of the predicate `jobWhere` builds, branch by branch. -/
def jobMatches (q : JobQuery) (j : JobRow) : Bool :=
  (if truthyStr q.title then ilikeContains j.title (q.title.getD "") else true) &&
  (if truthyInt q.minSalary then
      (match j.salary with
       | some s => decide (q.minSalary.getD 0 ≤ s)
       | none => false)
    else true) &&
  (if truthyStr q.hasEquity then
      (if q.hasEquity.getD "" == "true" then equityPos j else true)
    else true)

/-- The title/salary part of `jobMatches`, independent of `hasEquity` (used to
state what "the other criteria" select). -/
def jobOtherMatch (q : JobQuery) (j : JobRow) : Bool :=
  (if truthyStr q.title then ilikeContains j.title (q.title.getD "") else true) &&
  (if truthyInt q.minSalary then
      (match j.salary with
       | some s => decide (q.minSalary.getD 0 ≤ s)
       | none => false)
    else true)

/-- Embedding of `Job.findAll(query)` from `models/job.js` over an explicit `jobs` table;
the second component logs the SQL text issued (this operation never fails). -/
def Job.findAll (q : JobQuery) (tbl : List JobRow) : List JobRow × List String :=
  let whereStatement := jobWhere q
  (tbl.filter (jobMatches q), [jobSelect whereStatement])

/-! ## Outer-join aggregations (`Company.get`, `User.get`) -/

/-- The job columns `Company.get` projects into its `jobs` list. -/
structure JobInfo where
  id : Nat
  title : String
  salary : Option Int
  equity : Option ℚ
deriving DecidableEq, Repr

/-- The record `Company.get` returns; each `jobs` entry is `none` where the
JS callback produced `undefined`. -/
structure CompanyGetResult where
  handle : String
  name : String
  description : String
  numEmployees : Option Int
  logoUrl : Option String
  jobs : List (Option JobInfo)
deriving DecidableEq, Repr

/-- Embedding of `Company.get(companyHandle)` from `models/company.js`. The LEFT JOIN rows
are the company's jobs, or the single sentinel row (`none`) when it has no
jobs; an empty row set means no such company. The source maps each row with
`if (!r.id) return;` — producing `undefined` (here `none`) for the sentinel
row (or an id of 0) rather than skipping it. -/
def Company.get (companies : List CompanyRow) (jobs : List JobRow)
    (companyHandle : String) : Except Error CompanyGetResult :=
  match companies.find? (fun c => c.handle == companyHandle) with
  | none => .error (.notFound ("No company: " ++ companyHandle))
  | some c =>
    let matching := jobs.filter (fun j => j.companyHandle == c.handle)
    let rows : List (Option JobRow) :=
      if matching.isEmpty then [none] else matching.map some
    let jobsOut : List (Option JobInfo) := rows.map (fun r =>
      match r with
      | none => none
      | some j => if j.id == 0 then none else some ⟨j.id, j.title, j.salary, j.equity⟩)
    .ok { handle := c.handle, name := c.name, description := c.description,
          numEmployees := c.numEmployees, logoUrl := c.logoUrl, jobs := jobsOut }

/-- A row of the `applications` table. -/
structure AppRow where
  username : String
  jobId : String
deriving DecidableEq, Repr

/-- The record `User.get` returns; each `jobsApplied` entry is `none` where
the join produced a NULL `job_id`. -/
structure UserGetResult where
  username : String
  firstName : String
  lastName : String
  email : String
  isAdmin : String
  jobsApplied : List (Option String)
deriving DecidableEq, Repr

/-- Embedding of `User.get(usernameFind)` from `models/user.js`, over `users` rows as
association lists and an `applications` table. The LEFT JOIN yields one row
per application, or a single row with NULL `job_id` when the user has none;
the source maps the rows with `(r) => r.jobId`, passing that NULL through. -/
def User.get (users : List Row) (apps : List AppRow) (usernameFind : String) :
    Except Error UserGetResult :=
  match users.find? (fun r => lookupD r "username" == usernameFind) with
  | none => .error (.notFound ("No user: " ++ usernameFind))
  | some u =>
    let matching := apps.filter (fun a => a.username == lookupD u "username")
    let rows : List (Option String) :=
      if matching.isEmpty then [none] else matching.map (fun a => some a.jobId)
    .ok { username := lookupD u "username", firstName := lookupD u "first_name",
          lastName := lookupD u "last_name", email := lookupD u "email",
          isAdmin := lookupD u "is_admin", jobsApplied := rows }

/-! ## Partial updates (`Company.update`, `Job.update`, `User.update`) -/

/-- Assign `SET col = v` on a stored row; an unknown column is a store-level
error (the query fails). -/
def applyPair (row : Row) (p : String × String) : Option Row :=
  if (row.find? (fun kv => kv.1 == p.1)).isSome then
    some (row.map (fun kv => if kv.1 == p.1 then (kv.1, p.2) else kv))
  else none

def applyPairs (row : Row) : List (String × String) → Option Row
  | [] => some row
  | p :: ps =>
    match applyPair row p with
    | some row2 => applyPairs row2 ps
    | none => none

/-- The (column, value) pairs the generated `SET` clause binds: column `i` of
`setCols` is paired with `values[i-1]`, i.e. each data entry's resolved column
name with its supplied value, in order. -/
def setPairs (data jsToSql : Row) : List (String × String) :=
  data.map (fun kv => (resolveCol jsToSql kv.1, kv.2))

/-- Store semantics of `UPDATE t SET ... WHERE keyCol = keyVal RETURNING ...`:
find the (unique-keyed) row, apply the SET pairs, project the RETURNING list
of (column, alias) pairs from the updated row. `.ok none` models an empty
`result.rows`. -/
def execUpdate (tbl : List Row) (keyCol keyVal : String)
    (pairs : List (String × String)) (returning : List (String × String)) :
    Except Error (Option Row) :=
  match tbl.find? (fun r => lookupD r keyCol == keyVal) with
  | none => .ok none
  | some row =>
    match applyPairs row pairs with
    | none => .error (.badRequest "column does not exist")
    | some row2 => .ok (some (returning.map (fun ca => (ca.2, lookupD row2 ca.1))))

def companyJsToSql : Row :=
  [("numEmployees", "num_employees"), ("logoUrl", "logo_url")]

def companyReturning : List (String × String) :=
  [("handle", "handle"), ("name", "name"), ("description", "description"),
   ("num_employees", "numEmployees"), ("logo_url", "logoUrl")]

/-- Embedding of `Company.update(handle, data)` from `models/company.js`, over `companies`
rows as association lists; the second component logs the SQL texts issued. -/
def Company.update (tbl : List Row) (handle : String) (data : Row) :
    Except Error Row × List String :=
  match sqlForPartialUpdate data companyJsToSql with
  | .error e => (.error e, [])
  | .ok sc =>
    let querySql := "UPDATE companies SET " ++ sc.setCols
      ++ " WHERE handle = $" ++ toString (sc.values.length + 1)
      ++ " RETURNING handle, name, description, num_employees AS \"numEmployees\", logo_url AS \"logoUrl\""
    match execUpdate tbl "handle" handle (setPairs data companyJsToSql) companyReturning with
    | .error e => (.error e, [querySql])
    | .ok none => (.error (.notFound ("No company: " ++ handle)), [querySql])
    | .ok (some row) => (.ok row, [querySql])

def jobJsToSql : Row :=
  [("title", "title"), ("salary", "salary"), ("equity", "equity")]

def jobReturning : List (String × String) :=
  [("id", "id"), ("title", "title"), ("salary", "salary"),
   ("equity", "equity"), ("company_handle", "companyHandle")]

/-- Embedding of `Job.update(id, data)` from `models/job.js`, over `jobs` rows as
association lists; the second component logs the SQL texts issued. -/
def Job.update (tbl : List Row) (id : String) (data : Row) :
    Except Error Row × List String :=
  match sqlForPartialUpdate data jobJsToSql with
  | .error e => (.error e, [])
  | .ok sc =>
    let querySql := "UPDATE jobs SET " ++ sc.setCols
      ++ " WHERE id = $" ++ toString (sc.values.length + 1)
      ++ " RETURNING id, title, salary, equity, company_handle AS \"companyHandle\""
    match execUpdate tbl "id" id (setPairs data jobJsToSql) jobReturning with
    | .error e => (.error e, [querySql])
    | .ok none => (.error (.notFound ("No job id: " ++ id)), [querySql])
    | .ok (some row) => (.ok row, [querySql])

def userJsToSql : Row :=
  [("firstName", "first_name"), ("lastName", "last_name"), ("isAdmin", "is_admin")]

def userReturning : List (String × String) :=
  [("username", "username"), ("first_name", "firstName"),
   ("last_name", "lastName"), ("email", "email"), ("is_admin", "isAdmin")]

/-- The password pre-hashing step of `User.update`: a (truthy) supplied
`password` value is replaced in place by its hash. -/
def hashPasswordField (hash : String → String) (data : Row) : Row :=
  match lookupStr data "password" with
  | some pw =>
      if pw != "" then
        data.map (fun kv => if kv.1 == "password" then (kv.1, hash pw) else kv)
      else data
  | none => data

/-- Embedding of `User.update(username, data)` from `models/user.js`: a (truthy) supplied
password is first replaced by its hash, then the partial-update builder runs
and the UPDATE is issued; `delete user.password` strips the key from the
returned record. `hash` stands for `bcrypt.hash` with the configured work
factor. -/
def User.update (hash : String → String) (tbl : List Row) (username : String)
    (data : Row) : Except Error Row × List String :=
  let data := hashPasswordField hash data
  match sqlForPartialUpdate data userJsToSql with
  | .error e => (.error e, [])
  | .ok sc =>
    let querySql := "UPDATE users SET " ++ sc.setCols
      ++ " WHERE username = $" ++ toString (sc.values.length + 1)
      ++ " RETURNING username, first_name AS \"firstName\", last_name AS \"lastName\", email, is_admin AS \"isAdmin\""
    match execUpdate tbl "username" username (setPairs data userJsToSql) userReturning with
    | .error e => (.error e, [querySql])
    | .ok none => (.error (.notFound ("No user: " ++ username)), [querySql])
    | .ok (some row) =>
        (.ok (row.filter (fun kv => kv.1 != "password")), [querySql])

/-! ## Credentials (`User.authenticate`, `User.register`) -/

/-- Embedding of `User.authenticate(username, password)` from `models/user.js`: look the
user up, build the selected record (password included), check the supplied
password with `cmp` (standing for `bcrypt.compare`), and on success return
the record with the password deleted; any miss or mismatch falls through to
the same `UnauthorizedError`. -/
def User.authenticate (cmp : String → String → Bool) (tbl : List Row)
    (username password : String) : Except Error Row :=
  match tbl.find? (fun r => lookupD r "username" == username) with
  | none => .error (.unauthorized "Invalid username/password")
  | some r =>
    let user : Row :=
      [("username", lookupD r "username"), ("password", lookupD r "password"),
       ("firstName", lookupD r "first_name"), ("lastName", lookupD r "last_name"),
       ("email", lookupD r "email"), ("isAdmin", lookupD r "is_admin")]
    if cmp password (lookupD user "password") then
      .ok (user.filter (fun kv => kv.1 != "password"))
    else
      .error (.unauthorized "Invalid username/password")

/-- Embedding of `User.register(data)` from `models/user.js`: duplicate-username check,
hash the password, insert, and return the RETURNING projection (which names
every column except `password`). -/
def User.register (hash : String → String) (tbl : List Row)
    (username password firstName lastName email isAdmin : String) :
    Except Error Row :=
  if (tbl.find? (fun r => lookupD r "username" == username)).isSome then
    .error (.badRequest ("Duplicate username: " ++ username))
  else
    let hashedPassword := hash password
    let inserted : Row :=
      [("username", username), ("password", hashedPassword),
       ("first_name", firstName), ("last_name", lastName),
       ("email", email), ("is_admin", isAdmin)]
    .ok (userReturning.map (fun ca => (ca.2, lookupD inserted ca.1)))

/-! ## Theorems -/

theorem enum_map_segments (jsToSql : Row) (ks : List String) :
    ks.enum.map (fun p => "\"" ++ resolveCol jsToSql p.2 ++ "\"=$" ++ toString (p.1 + 1))
      = expectedSegments jsToSql 1 ks := by
  simpa using enumFrom_map_segments jsToSql ks 0

theorem sqlForPartialUpdate_cons (p : String × String) (rest jsToSql : Row) :
    sqlForPartialUpdate (p :: rest) jsToSql =
      .ok ⟨String.intercalate ", " (expectedSegments jsToSql 1 ((p :: rest).map Prod.fst)),
           (p :: rest).map Prod.snd⟩ := by
  simp only [sqlForPartialUpdate]
  rw [if_neg]
  · rw [enum_map_segments]
  · simp

/-- Claim C1: for every non-empty sparse update mapping and every column-name
mapping, `sqlForPartialUpdate` succeeds with a SET clause that is exactly the
`", "`-join of one `"column"=$i` segment per input key — in insertion order,
with 1-based sequential placeholder indices (`expectedSegments`) — and a
values list of the same length holding the supplied values in that order;
a key absent from the column-name mapping resolves to itself verbatim. -/
theorem sqlForPartialUpdate_clause_correct (data jsToSql : Row)
    (hne : data ≠ []) (hkeys : (data.map Prod.fst).Nodup) :
    ∃ r, sqlForPartialUpdate data jsToSql = .ok r ∧
      r.setCols = String.intercalate ", " (expectedSegments jsToSql 1 (data.map Prod.fst)) ∧
      (expectedSegments jsToSql 1 (data.map Prod.fst)).length = data.length ∧
      r.values = data.map Prod.snd ∧
      r.values.length = data.length ∧
      (∀ k, lookupStr jsToSql k = none → resolveCol jsToSql k = k) := by
  obtain ⟨p, rest, rfl⟩ := List.exists_cons_of_ne_nil hne
  refine ⟨_, sqlForPartialUpdate_cons p rest jsToSql, rfl, ?_, rfl, ?_, ?_⟩
  · rw [expectedSegments_length]
    simp
  · simp
  · intro k hk
    unfold resolveCol
    rw [hk]

/-- Witness for C1 at the repository's own test input. -/
theorem sqlForPartialUpdate_clause_correct_witness :
    ∃ r, sqlForPartialUpdate
        [("firstName", "UpdateFirstName"), ("lastName", "UpdateLastName")]
        [("firstName", "first_name"), ("lastName", "last_name"), ("isAdmin", "is_admin")]
        = .ok r ∧
      r.setCols = String.intercalate ", "
        (expectedSegments
          [("firstName", "first_name"), ("lastName", "last_name"), ("isAdmin", "is_admin")]
          1 ["firstName", "lastName"]) ∧
      (expectedSegments
          [("firstName", "first_name"), ("lastName", "last_name"), ("isAdmin", "is_admin")]
          1 ["firstName", "lastName"]).length = 2 ∧
      r.values = ["UpdateFirstName", "UpdateLastName"] ∧
      r.values.length = 2 ∧
      (∀ k, lookupStr [("firstName", "first_name"), ("lastName", "last_name"),
          ("isAdmin", "is_admin")] k = none →
        resolveCol [("firstName", "first_name"), ("lastName", "last_name"),
          ("isAdmin", "is_admin")] k = k) :=
  sqlForPartialUpdate_clause_correct
    [("firstName", "UpdateFirstName"), ("lastName", "UpdateLastName")]
    [("firstName", "first_name"), ("lastName", "last_name"), ("isAdmin", "is_admin")]
    (by decide) (by decide)

/-- Claim C2: the clause builder rejects an empty update mapping with the
`BadRequestError "No data"` (the spec's InvalidInput kind) for every
column-name mapping, and `Company.update`, `Job.update` and `User.update`
all propagate that failure without issuing any query (empty query log). -/
theorem emptyUpdate_rejected_before_query (jsToSql : Row)
    (ctbl jtbl utbl : List Row) (h j u : String) (hash : String → String) :
    sqlForPartialUpdate [] jsToSql = .error (.badRequest "No data") ∧
    Company.update ctbl h [] = (.error (.badRequest "No data"), []) ∧
    Job.update jtbl j [] = (.error (.badRequest "No data"), []) ∧
    User.update hash utbl u [] = (.error (.badRequest "No data"), []) :=
  ⟨rfl, rfl, rfl, rfl⟩

/-- Claim C3 (code bug): evaluated on a company with zero jobs and a user
with zero applications, `Company.get` returns `jobs = [none]` and `User.get`
returns `jobsApplied = [none]` — the outer-join sentinel row is mapped to an
`undefined`/`null` placeholder entry, not dropped, contradicting the claimed
empty lists. -/
theorem get_zeroChildren_keeps_sentinel :
    Company.get [⟨"c1", "Company One", "Desc", some 10, none⟩] [] "c1"
      = .ok ⟨"c1", "Company One", "Desc", some 10, none, [none]⟩ ∧
    User.get
        [[("username", "u2"), ("password", "hashedpw"), ("first_name", "U2F"),
          ("last_name", "U2L"), ("email", "user2@user.com"), ("is_admin", "false")]]
        [] "u2"
      = .ok ⟨"u2", "U2F", "U2L", "user2@user.com", "false", [none]⟩ := by
  constructor
  · rfl
  · rfl

/-- Claim C4 (code bug): `Job.update` does not structurally exclude `id`:
the builder's verbatim fallback turns a data key outside the jsToSql mapping
into a SET column, so `Job.update(1, {id: "42"})` generates the clause
`"id"=$1` and the stored/returned job's id becomes 42. -/
theorem jobUpdate_id_not_excluded :
    sqlForPartialUpdate [("id", "42")] jobJsToSql = .ok ⟨"\"id\"=$1", ["42"]⟩ ∧
    (Job.update
        [[("id", "1"), ("title", "j1"), ("salary", "100000"),
          ("equity", "0"), ("company_handle", "c1")]]
        "1" [("id", "42")]).1
      = .ok [("id", "42"), ("title", "j1"), ("salary", "100000"),
             ("equity", "0"), ("companyHandle", "c1")] := by
  constructor
  · rfl
  · rfl

/-- Claim C5 (code bug): `Company.findAll` / `Job.findAll` interpolate the
criteria values into the issued SQL text, so two criteria with the same
present-set but different values issue different query texts, and the raw
value (with its quoting) appears verbatim in the text — not a bound
parameter. -/
theorem findAll_interpolates_values :
    (Company.findAll ⟨some "a", none, none⟩ []).2
      ≠ (Company.findAll ⟨some "b", none, none⟩ []).2 ∧
    (Job.findAll ⟨none, some 100, none⟩ []).2
      ≠ (Job.findAll ⟨none, some 200, none⟩ []).2 ∧
    charsContain "\x27%a%\x27".toList
      (((Company.findAll ⟨some "a", none, none⟩ []).2.headD "").toList) = true := by
  refine ⟨by decide, by decide, by decide⟩

/-- Claim C6 counterexample: with `minEmployees = 5` and `maxEmployees = 0`
both supplied and `5 > 0`, `Company.findAll` does not fail — it issues the
query (non-empty log) and returns rows — because JS truthiness skips the
range validation when a bound is `0`. -/
theorem findAll_range_zero_not_rejected :
    (Company.findAll ⟨none, some 5, some 0⟩ []).1 = .ok [] ∧
    (Company.findAll ⟨none, some 5, some 0⟩ []).2 ≠ [] := by
  refine ⟨rfl, by decide⟩

/-- Claim C6 (amended): whenever both bounds are supplied and truthy
(non-zero) and `minEmployees > maxEmployees`, `Company.findAll` fails with
the invalid-range `BadRequestError` before issuing any query (empty log). -/
theorem findAll_range_rejected (q : CompanyQuery) (tbl : List CompanyRow)
    (hmin : truthyInt q.minEmployees = true) (hmax : truthyInt q.maxEmployees = true)
    (hgt : q.minEmployees.getD 0 > q.maxEmployees.getD 0) :
    Company.findAll q tbl
      = (.error (.badRequest "Min Employees cannot be greater than Max Employees"), []) := by
  unfold Company.findAll
  rw [if_pos]
  simp [hmin, hmax, hgt]

/-- Witness for the amended C6 at `minEmployees = 5`, `maxEmployees = 3`. -/
theorem findAll_range_rejected_witness :
    Company.findAll ⟨none, some 5, some 3⟩ []
      = (.error (.badRequest "Min Employees cannot be greater than Max Employees"), []) :=
  findAll_range_rejected ⟨none, some 5, some 3⟩ [] (by decide) (by decide) (by decide)

/-- Claim C7: when `hasEquity` is `"true"`, `Job.findAll` returns exactly the
jobs satisfying the other criteria whose equity is strictly positive; when it
is `"false"` or absent, no equity constraint is applied and the other
criteria alone select the rows. -/
theorem jobFindAll_hasEquity (q : JobQuery) (tbl : List JobRow) :
    (q.hasEquity = some "true" →
      (Job.findAll q tbl).1 = tbl.filter (fun j => jobOtherMatch q j && equityPos j)) ∧
    (q.hasEquity = some "false" ∨ q.hasEquity = none →
      (Job.findAll q tbl).1 = tbl.filter (fun j => jobOtherMatch q j)) := by
  constructor
  · intro h
    have hfun : jobMatches q = fun j => jobOtherMatch q j && equityPos j := by
      funext j
      simp [jobMatches, jobOtherMatch, h, truthyStr, Bool.and_assoc]
    simp only [Job.findAll, hfun]
  · intro h
    have hfun : jobMatches q = fun j => jobOtherMatch q j := by
      funext j
      rcases h with h | h <;> simp [jobMatches, jobOtherMatch, h, truthyStr]
    simp only [Job.findAll, hfun]

/-- Witness for C7: with `hasEquity = "true"` only the job with positive
equity survives. -/
theorem jobFindAll_hasEquity_witness :
    (Job.findAll ⟨none, none, some "true"⟩
        [⟨1, "j1", some 100000, some (1 : ℚ), "c1"⟩,
         ⟨2, "j2", some 120000, some 0, "c2"⟩,
         ⟨3, "j3", some 130000, none, "c3"⟩]).1
      = [⟨1, "j1", some 100000, some (1 : ℚ), "c1"⟩] := by
  rw [(jobFindAll_hasEquity ⟨none, none, some "true"⟩ _).1 rfl]
  decide

/-- Claim C8: the operation `User.authenticate` yields the single `UnauthorizedError`
`"Invalid username/password"` both on a username miss and on a password
mismatch (so the two cases are indistinguishable), every failure is that
error (never NotFound), and a success returns exactly the record keys
`username, firstName, lastName, email, isAdmin` — the password stripped. -/
theorem authenticate_failures_unified (cmp : String → String → Bool)
    (tbl : List Row) (username password : String) :
    (tbl.find? (fun r => lookupD r "username" == username) = none →
      User.authenticate cmp tbl username password
        = .error (.unauthorized "Invalid username/password")) ∧
    (∀ r, tbl.find? (fun r => lookupD r "username" == username) = some r →
      cmp password (lookupD r "password") = false →
      User.authenticate cmp tbl username password
        = .error (.unauthorized "Invalid username/password")) ∧
    (∀ e, User.authenticate cmp tbl username password = .error e →
      e = .unauthorized "Invalid username/password") ∧
    (∀ rec, User.authenticate cmp tbl username password = .ok rec →
      rec.map Prod.fst = ["username", "firstName", "lastName", "email", "isAdmin"]) := by
  unfold User.authenticate
  cases hfind : tbl.find? (fun r => lookupD r "username" == username) with
  | none =>
      refine ⟨fun _ => rfl, ?_, ?_, ?_⟩
      · intro r hr _
        cases hr
      · intro e he
        injection he with h
        exact h.symm
      · intro rec hrec
        cases hrec
  | some r =>
      dsimp only
      have hpw : lookupD [("username", lookupD r "username"),
          ("password", lookupD r "password"), ("firstName", lookupD r "first_name"),
          ("lastName", lookupD r "last_name"), ("email", lookupD r "email"),
          ("isAdmin", lookupD r "is_admin")] "password" = lookupD r "password" := by
        simp [lookupD, lookupStr]
      refine ⟨?_, ?_, ?_, ?_⟩
      · intro h
        cases h
      · intro r' hr' hcmp
        injection hr' with hr'
        subst hr'
        rw [hpw, hcmp]
        rfl
      · intro e he
        rw [hpw] at he
        cases hcmp : cmp password (lookupD r "password") with
        | true => rw [hcmp] at he; cases he
        | false =>
            rw [hcmp] at he
            injection he with h
            exact h.symm
      · intro rec hrec
        rw [hpw] at hrec
        cases hcmp : cmp password (lookupD r "password") with
        | true =>
            rw [hcmp] at hrec
            injection hrec with h
            rw [← h]
            simp
        | false => rw [hcmp] at hrec; cases hrec

/-- Witness for C8: a missing username and a wrong password both produce the
same Unauthorized error; the matching password yields the password-free
record. -/
theorem authenticate_failures_unified_witness :
    User.authenticate (fun a b => a == b)
        [[("username", "u1"), ("password", "pw1"), ("first_name", "F"),
          ("last_name", "L"), ("email", "e@x.com"), ("is_admin", "false")]]
        "nope" "pw1" = .error (.unauthorized "Invalid username/password") ∧
    User.authenticate (fun a b => a == b)
        [[("username", "u1"), ("password", "pw1"), ("first_name", "F"),
          ("last_name", "L"), ("email", "e@x.com"), ("is_admin", "false")]]
        "u1" "wrong" = .error (.unauthorized "Invalid username/password") :=
  ⟨(authenticate_failures_unified (fun a b => a == b) _ "nope" "pw1").1 (by decide),
   (authenticate_failures_unified (fun a b => a == b) _ "u1" "wrong").2.1
     [("username", "u1"), ("password", "pw1"), ("first_name", "F"),
      ("last_name", "L"), ("email", "e@x.com"), ("is_admin", "false")]
     (by decide) (by decide)⟩

theorem filter_password_keys (l : Row) :
    "password" ∉ (l.filter (fun kv => kv.1 != "password")).map Prod.fst := by
  simp

/-- Claim C9: whenever `User.register`, `User.update` or `User.authenticate`
succeeds, the returned record has no `password` key: the RETURNING
projections never name `password` and the authenticate/update paths delete
it explicitly. -/
theorem password_excluded_from_results (hash : String → String)
    (cmp : String → String → Bool) (t1 t2 t3 : List Row)
    (un pw fn ln em ad uu au ap : String) (data : Row) :
    (∀ rec, User.register hash t1 un pw fn ln em ad = .ok rec →
      "password" ∉ rec.map Prod.fst) ∧
    (∀ rec, (User.update hash t2 uu data).1 = .ok rec →
      "password" ∉ rec.map Prod.fst) ∧
    (∀ rec, User.authenticate cmp t3 au ap = .ok rec →
      "password" ∉ rec.map Prod.fst) := by
  refine ⟨?_, ?_, ?_⟩
  · intro rec hrec
    unfold User.register at hrec
    split at hrec
    · cases hrec
    · injection hrec with h
      rw [← h]
      simp [userReturning]
  · intro rec hrec
    unfold User.update at hrec
    dsimp only at hrec
    split at hrec
    · simp at hrec
    · split at hrec
      · simp at hrec
      · simp at hrec
      · simp only at hrec
        injection hrec with h
        rw [← h]
        exact filter_password_keys _
  · intro rec hrec
    unfold User.authenticate at hrec
    split at hrec
    · cases hrec
    · dsimp only at hrec
      split at hrec
      · injection hrec with h
        rw [← h]
        exact filter_password_keys _
      · cases hrec

/-- Witness for C9: concrete successful register, update and authenticate
runs, none of whose results carries a `password` key. -/
theorem password_excluded_from_results_witness :
    "password" ∉
      ([("username", "u"), ("firstName", "F"), ("lastName", "L"),
        ("email", "e@x.com"), ("isAdmin", "false")] : Row).map Prod.fst ∧
    "password" ∉
      ([("username", "u1"), ("firstName", "X"), ("lastName", "L"),
        ("email", "e@x.com"), ("isAdmin", "false")] : Row).map Prod.fst ∧
    "password" ∉
      ([("username", "u1"), ("firstName", "F"), ("lastName", "L"),
        ("email", "e@x.com"), ("isAdmin", "false")] : Row).map Prod.fst := by
  have h := password_excluded_from_results (fun s => s ++ "#h") (fun a b => a == b)
    []
    [[("username", "u1"), ("password", "pw1"), ("first_name", "F"),
      ("last_name", "L"), ("email", "e@x.com"), ("is_admin", "false")]]
    [[("username", "u1"), ("password", "pw1"), ("first_name", "F"),
      ("last_name", "L"), ("email", "e@x.com"), ("is_admin", "false")]]
    "u" "pw" "F" "L" "e@x.com" "false" "u1" "u1" "pw1"
    [("firstName", "X")]
  exact ⟨h.1 _ rfl, h.2.1 _ rfl, h.2.2 _ rfl⟩

/-- Claim C10: a supplied-but-falsy criterion (numeric `0`, empty string) is
treated exactly as an absent one by `Company.findAll` and `Job.findAll` (same
error behavior, same issued query text, same rows), and the
`minEmployees > maxEmployees` validation is skipped whenever either bound is
`0` (the call succeeds instead of failing). -/
theorem falsyCriteria_treated_as_absent (tbl : List CompanyRow)
    (jtbl : List JobRow) (nm : Option String) (mn mx : Option Int)
    (tt : Option String) (ms : Option Int) (he : Option String) :
    Company.findAll ⟨some "", mn, mx⟩ tbl = Company.findAll ⟨none, mn, mx⟩ tbl ∧
    Company.findAll ⟨nm, some 0, mx⟩ tbl = Company.findAll ⟨nm, none, mx⟩ tbl ∧
    Company.findAll ⟨nm, mn, some 0⟩ tbl = Company.findAll ⟨nm, mn, none⟩ tbl ∧
    Job.findAll ⟨some "", ms, he⟩ jtbl = Job.findAll ⟨none, ms, he⟩ jtbl ∧
    Job.findAll ⟨tt, some 0, he⟩ jtbl = Job.findAll ⟨tt, none, he⟩ jtbl ∧
    (∃ rows, (Company.findAll ⟨nm, some 0, mx⟩ tbl).1 = .ok rows) ∧
    (∃ rows, (Company.findAll ⟨nm, mn, some 0⟩ tbl).1 = .ok rows) := by
  refine ⟨rfl, rfl, rfl, rfl, rfl, ⟨_, rfl⟩, ?_⟩
  refine ⟨tbl.filter (companyMatches ⟨nm, mn, some 0⟩), ?_⟩
  unfold Company.findAll
  rw [if_neg (by simp [truthyInt])]
